import Mathlib

/-!
Shallow embedding of `src/camera_sabotage_detector.cpp` from the
camera-sabotage-detector repository, together with theorems checking the
natural-language specification against it.

Modelling conventions:
* a decoded `cv::Mat` of type `CV_8U` becomes a `Raster`, a list of rows of
  natural-number intensities; a failed decode is the empty raster;
* all `double` arithmetic is embedded exactly over `ℚ`;
* the external OpenCV collaborators that are not arithmetic on the pixel
  grid — `cv::imread` / `cv::imdecode` (image decoding), the square root
  inside `cv::meanStdDev` (`stddevIntensity`), and the Canny edge detector —
  are universally quantified parameters of the embedded functions, so every
  theorem holds for every possible behaviour of those collaborators;
* N-API exceptions become the `Except CallError` monad.
-/

namespace CameraSabotage

/-- A decoded single-channel raster: a grid of 8-bit intensity samples,
mirroring the `cv::Mat` (type `CV_8U`) every scorer receives. A failed
decode yields the empty raster, mirroring an empty `cv::Mat`. -/
structure Raster where
  data : List (List Nat)
deriving DecidableEq, Repr

/-- Number of rows, mirroring `Mat::rows`. -/
def Raster.rows (r : Raster) : Nat := r.data.length

/-- Number of columns, mirroring `Mat::cols`. -/
def Raster.cols (r : Raster) : Nat := (r.data.headD []).length

/-- The pixels of the raster in row-major order. -/
def Raster.pixels (r : Raster) : List Nat := r.data.flatten

/-- Total number of pixels, mirroring `rows * cols` in the source. -/
def Raster.total (r : Raster) : Nat := r.rows * r.cols

/-- The raster is rectangular: every row has length `cols`. -/
def Raster.Rect (r : Raster) : Prop := ∀ row ∈ r.data, row.length = r.cols

instance (r : Raster) : Decidable r.Rect := by
  unfold Raster.Rect
  exact List.decidableBAll _ _

/-- A valid raster: positive dimensions, rectangular, 8-bit samples.
Every raster produced by decoding a `CV_8U` grayscale image satisfies this. -/
def Raster.Valid (r : Raster) : Prop :=
  0 < r.rows ∧ 0 < r.cols ∧ r.Rect ∧ ∀ p ∈ r.pixels, p ≤ 255

instance (r : Raster) : Decidable r.Valid := by
  unfold Raster.Valid
  infer_instance

/-- Sum of all pixel intensities. -/
def rasterSum (r : Raster) : Nat := r.pixels.sum

/-- Mean intensity, mirroring `cv::mean(gray)[0]` (sum divided by
`rows * cols`). -/
def rasterMean (r : Raster) : ℚ := (rasterSum r : ℚ) / (r.total : ℚ)

/-- Histogram bin `i` of the raster, mirroring `hist.at<float>(i)` after
`cv::calcHist` with 256 unit-width bins over `[0,256)`: the number of pixels
whose intensity equals `i`. -/
def histCount (r : Raster) (i : Nat) : Nat := r.pixels.count i

/-- Sum of the `n` consecutive histogram bins starting at `a`, mirroring the
`for` loops in the source that accumulate `hist.at<float>(i)`. -/
def binRangeSum (r : Raster) (a n : Nat) : Nat :=
  ((List.range n).map (fun i => histCount r (a + i))).sum

/-- Mean of a list of rationals. -/
def listMean (xs : List ℚ) : ℚ := xs.sum / (xs.length : ℚ)

/-- Population variance of a list of rationals, the square of the standard
deviation computed by `cv::meanStdDev`: mean of the squared deviations from
the mean. -/
def listVar (xs : List ℚ) : ℚ :=
  (xs.map (fun x => (x - listMean xs) ^ 2)).sum / (xs.length : ℚ)

/-- OpenCV `BORDER_REFLECT_101` index folding (`borderInterpolate`), for an
index that is at most one step out of range — the only case the 3×3
Laplacian stencil produces: `-1 ↦ 1` and `len ↦ len - 2`, with a
single-element axis always mapping to `0`. -/
def reflect101 (len : Nat) (p : Int) : Nat :=
  if len ≤ 1 then 0
  else if p < 0 then (-p).toNat
  else if p < (len : Int) then p.toNat
  else (2 * ((len : Int) - 1) - p).toNat

/-- Pixel access at possibly out-of-range signed coordinates, using the
default `BORDER_REFLECT_101` border handling of `cv::Laplacian`. -/
def Raster.atI (r : Raster) (i j : Int) : Nat :=
  (r.data.getD (reflect101 r.rows i) []).getD (reflect101 r.cols j) 0

/-- The Laplacian response at pixel `(i, j)`: `cv::Laplacian` with the
default aperture applies the kernel `[[0,1,0],[1,-4,1],[0,1,0]]` into a
`CV_64F` matrix; on integer samples the response is an exact integer. -/
def lapAt (r : Raster) (i j : Nat) : Int :=
  (r.atI ((i : Int) - 1) (j : Int) : Int) + (r.atI ((i : Int) + 1) (j : Int) : Int)
    + (r.atI (i : Int) ((j : Int) - 1) : Int) + (r.atI (i : Int) ((j : Int) + 1) : Int)
    - 4 * (r.atI (i : Int) (j : Int) : Int)

/-- All Laplacian responses of the raster in row-major order. -/
def lapList (r : Raster) : List Int :=
  ((List.range r.rows).map (fun i => (List.range r.cols).map (fun j => lapAt r i j))).flatten

/-- Variance of the Laplacian response, mirroring
`cv::meanStdDev(laplacian, mean, stddev); variance = stddev[0]*stddev[0]`. -/
def lapVariance (r : Raster) : ℚ := listVar (List.map (fun z : ℤ => (z : ℚ)) (lapList r))

/-- Variance of the raw intensities; its square root is the
`stddevIntensity[0]` the smear pipeline reads from `cv::meanStdDev(gray, …)`. -/
def rasterVariance (r : Raster) : ℚ := listVar (List.map (fun p : ℕ => (p : ℚ)) r.pixels)

/-- Embeds `calculateBlurScore` (source lines 12–23). -/
def calculateBlurScore (r : Raster) : ℚ :=
  let variance := lapVariance r
  100 - min 100 (max 0 ((variance - 0) / (1000 - 0) * 100))

/-- Embeds `calculateBlackoutScore` (source lines 26–49): bins 0–74 of the
histogram are the dark pixels. -/
def calculateBlackoutScore (r : Raster) : ℚ :=
  let avgIntensity := rasterMean r
  let darkPixels : ℚ := (binRangeSum r 0 75 : ℚ)
  let totalPixels : ℚ := (r.total : ℚ)
  let darkPercentage := darkPixels / totalPixels * 100
  let intensityScore := max 0 ((60 - avgIntensity) * 1.5)
  let darkPixelScore := darkPercentage * 0.6
  min 100 (intensityScore + darkPixelScore)

/-- Embeds `calculateFlashScore` (source lines 52–69): bins 200–255 of the
histogram are the high-intensity pixels. -/
def calculateFlashScore (r : Raster) : ℚ :=
  let highIntensityPixels : ℚ := (binRangeSum r 200 56 : ℚ)
  let totalPixels : ℚ := (r.total : ℚ)
  let brightPercentage := highIntensityPixels / totalPixels * 100
  min 100 (max 0 (brightPercentage * 3))

/-- Embeds `calculateSceneChangeScore` (source lines 72–82): returns `0` on an
empty previous raster, otherwise the clamped scaled mean absolute difference
(`cv::absdiff` followed by `cv::mean`, the divisor being the pixel count of
the current frame since `absdiff` requires equal sizes). -/
def calculateSceneChangeScore (current previous : Raster) : ℚ :=
  if previous.pixels.isEmpty then 0
  else
    let diff := List.zipWith (fun (a b : Nat) => ((a : Int) - (b : Int)).natAbs)
      current.pixels previous.pixels
    let avgDiff : ℚ := ((diff.sum : ℚ) / (current.total : ℚ))
    min 100 (max 0 (avgDiff / 50 * 100))

/-- Number of nonzero pixels, mirroring `cv::countNonZero(edges)`. -/
def countNonZero (r : Raster) : Nat := r.pixels.countP (fun p => decide (p ≠ 0))

/-- Embeds the smear-score block inside `DetectSabotage` (source lines
108–177) as a function of the grayscale raster, the externally computed
standard deviation of its intensities, and the externally computed Canny edge
map. Bins 0–84, 85–169 and 170–255 are the dark, mid and bright thirds. -/
def sabotageSmearScore (gray : Raster) (stddevIntensity : ℚ) (edges : Raster) : ℚ :=
  let blurScore := calculateBlurScore gray
  let brightness := rasterMean gray
  let contrastScore := 100 - min 100 (max 0 (stddevIntensity / 10 * 100))
  let edgeDensity : ℚ := (countNonZero edges : ℚ) / (edges.total : ℚ)
  let edgeScore := 100 - min 100 (edgeDensity * 150)
  let darkPixels : ℚ := (binRangeSum gray 0 85 : ℚ)
  let midPixels : ℚ := (binRangeSum gray 85 85 : ℚ)
  let brightPixels : ℚ := (binRangeSum gray 170 86 : ℚ)
  let totalPixels : ℚ := (gray.total : ℚ)
  let darkPercentage := darkPixels / totalPixels * 100
  let midPercentage := midPixels / totalPixels * 100
  let brightPercentage := brightPixels / totalPixels * 100
  let baseScore := blurScore * 0.5 + contrastScore * 0.3 + edgeScore * 0.2
  let brightnessFactor := min 1 (brightness / 120)
  let darkThreshold := 8 + brightnessFactor * 3
  let brightThreshold := 8 + (1 - brightnessFactor) * 3
  let midThreshold := 15 + brightnessFactor * 2
  let is0 : ℚ := 0
  let is1 := if brightness > 120 then is0 + (brightness - 120) * 0.8 else is0
  let is2 := if darkPercentage > darkThreshold then is1 + darkPercentage * 0.5 else is1
  let is3 := if brightPercentage > brightThreshold then is2 + brightPercentage * 0.5 else is2
  let intensityScore := if midPercentage > midThreshold then is3 + midPercentage * 0.3 else is3
  let combinedScore := baseScore + intensityScore * 0.4
  if combinedScore > 20 then min 100 (20 + (combinedScore - 20) * 1.5)
  else combinedScore * 0.5

/-- Embeds the smear computation of the dedicated `DetectSmear` entry point
(source lines 276–344) as a function of the grayscale raster obtained after
`cvtColor`, the externally computed standard deviation, and the externally
computed Canny edge map. Transliterated independently of
`sabotageSmearScore` so their equality is a statement about the two
duplicated code blocks. -/
def detectSmearScoreOf (gray : Raster) (stddevIntensity : ℚ) (edges : Raster) : ℚ :=
  let blurScore := calculateBlurScore gray
  let brightness := rasterMean gray
  let contrastScore := 100 - min 100 (max 0 (stddevIntensity / 10 * 100))
  let edgeDensity : ℚ := (countNonZero edges : ℚ) / (edges.total : ℚ)
  let edgeScore := 100 - min 100 (edgeDensity * 150)
  let darkPixels : ℚ := (binRangeSum gray 0 85 : ℚ)
  let midPixels : ℚ := (binRangeSum gray 85 85 : ℚ)
  let brightPixels : ℚ := (binRangeSum gray 170 86 : ℚ)
  let totalPixels : ℚ := (gray.total : ℚ)
  let darkPercentage := darkPixels / totalPixels * 100
  let midPercentage := midPixels / totalPixels * 100
  let brightPercentage := brightPixels / totalPixels * 100
  let baseScore := blurScore * 0.5 + contrastScore * 0.3 + edgeScore * 0.2
  let brightnessFactor := min 1 (brightness / 120)
  let darkThreshold := 8 + brightnessFactor * 3
  let brightThreshold := 8 + (1 - brightnessFactor) * 3
  let midThreshold := 15 + brightnessFactor * 2
  let is0 : ℚ := 0
  let is1 := if brightness > 120 then is0 + (brightness - 120) * 0.8 else is0
  let is2 := if darkPercentage > darkThreshold then is1 + darkPercentage * 0.5 else is1
  let is3 := if brightPercentage > brightThreshold then is2 + brightPercentage * 0.5 else is2
  let intensityScore := if midPercentage > midThreshold then is3 + midPercentage * 0.3 else is3
  let combinedScore := baseScore + intensityScore * 0.4
  if combinedScore > 20 then min 100 (20 + (combinedScore - 20) * 1.5)
  else combinedScore * 0.5

/-- A JavaScript argument as seen through N-API type tests: a path string, a
byte buffer, or any other value. -/
inductive NapiArg where
  | path (s : String)
  | buffer (bytes : List Nat)
  | other
deriving DecidableEq

/-- The failure modes the entry points raise as JavaScript exceptions:
`Napi::TypeError` for a malformed argument, `Napi::Error` for a raster that
failed to decode or decoded empty. -/
inductive CallError where
  | typeError
  | readError
deriving DecidableEq, Repr

/-- The single-frame result object assembled at source lines 180–184. -/
structure ScoreRecord where
  blurScore : ℚ
  blackoutScore : ℚ
  flashScore : ℚ
  smearScore : ℚ
deriving DecidableEq, Repr

/-- The pair result object assembled at source lines 230–231. -/
structure SceneChangeRecord where
  sceneChangeScore : ℚ
deriving DecidableEq, Repr

/-- The argument-dispatch prefix shared by the entry points (string →
`cv::imread`, buffer → `cv::imdecode`, otherwise a `TypeError` with no decode
attempted), with the two decoders as external parameters. -/
def decodeArg (imreadF : String → Raster) (imdecodeF : List Nat → Raster) :
    NapiArg → Option Raster
  | .path s => some (imreadF s)
  | .buffer b => some (imdecodeF b)
  | .other => none

/-- The body of `DetectSabotage` after decoding (source lines 102–186): an
empty raster is rejected, otherwise the four scores are assembled. -/
def detectSabotageOnRaster (stddevOf : Raster → ℚ) (cannyOf : Raster → Raster)
    (gray : Raster) : Except CallError ScoreRecord :=
  if gray.pixels.isEmpty then .error .readError
  else .ok ⟨calculateBlurScore gray, calculateBlackoutScore gray,
    calculateFlashScore gray, sabotageSmearScore gray (stddevOf gray) (cannyOf gray)⟩

/-- Embeds the `DetectSabotage` entry point (source lines 84–192),
parametrized by the external decoders and the external standard-deviation and
Canny collaborators. -/
def DetectSabotage (imreadF : String → Raster) (imdecodeF : List Nat → Raster)
    (stddevOf : Raster → ℚ) (cannyOf : Raster → Raster) (arg : NapiArg) :
    Except CallError ScoreRecord :=
  match decodeArg imreadF imdecodeF arg with
  | none => .error .typeError
  | some gray => detectSabotageOnRaster stddevOf cannyOf gray

/-- Embeds the `DetectSceneChange` entry point (source lines 194–238): each
argument is type-checked and decoded in order, then an empty current or
previous raster is rejected as `readError` before any scoring. -/
def DetectSceneChange (imreadF : String → Raster) (imdecodeF : List Nat → Raster)
    (arg1 arg2 : NapiArg) : Except CallError SceneChangeRecord :=
  match decodeArg imreadF imdecodeF arg1 with
  | none => .error .typeError
  | some current =>
    match decodeArg imreadF imdecodeF arg2 with
    | none => .error .typeError
    | some previous =>
      if current.pixels.isEmpty || previous.pixels.isEmpty then .error .readError
      else .ok ⟨calculateSceneChangeScore current previous⟩

/-! ### Spec-side definitions

These follow the wording of the specification (§4 of `spec.md`); the
refinement theorems below compare them with the source-side definitions. -/

/-- Spec-side clamp to a closed interval. -/
def clamp (x lo hi : ℚ) : ℚ := min hi (max lo x)

/-- Number of pixels whose intensity lies in the closed interval `[a, b]`. -/
def countBetween (r : Raster) (a b : Nat) : Nat :=
  r.pixels.countP (fun p => decide (a ≤ p ∧ p ≤ b))

/-- Percentage of pixels whose intensity lies in the closed interval `[a, b]`. -/
def pctBetween (r : Raster) (a b : Nat) : ℚ :=
  (countBetween r a b : ℚ) / (r.total : ℚ) * 100

/-! ### Counting lemmas: histogram-bin sums against closed-interval counts -/

lemma sum_map_add {α : Type} (l : List α) (f g : α → ℕ) :
    (l.map (fun x => f x + g x)).sum = (l.map f).sum + (l.map g).sum := by
  induction l with
  | nil => simp
  | cons a t ih => simp [ih]; omega

lemma point_bin (a n p : ℕ) :
    ((List.range n).map (fun i => if p = a + i then 1 else 0)).sum
      = if a ≤ p ∧ p < a + n then 1 else 0 := by
  induction n with
  | zero =>
      simp only [List.range_zero, List.map_nil, List.sum_nil]
      split_ifs <;> omega
  | succ k ih =>
      rw [List.range_succ, List.map_append, List.sum_append, ih]
      simp only [List.map_cons, List.map_nil, List.sum_cons, List.sum_nil]
      split_ifs <;> omega

lemma count_range_sum (xs : List Nat) (a n : ℕ) :
    ((List.range n).map (fun i => xs.count (a + i))).sum
      = xs.countP (fun p => decide (a ≤ p ∧ p < a + n)) := by
  induction xs with
  | nil => simp
  | cons q t ih =>
      simp only [List.count_cons, List.countP_cons]
      rw [sum_map_add (List.range n) (fun i => t.count (a + i))
        (fun i => if q == a + i then 1 else 0), ih]
      have hpt : ((List.range n).map (fun i => if q == a + i then 1 else 0)).sum
          = if a ≤ q ∧ q < a + n then 1 else 0 := by
        rw [← point_bin a n q]
        simp only [beq_iff_eq]
      rw [hpt]
      simp [decide_eq_true_eq]

lemma binRangeSum_eq_countP (r : Raster) (a n : ℕ) :
    binRangeSum r a n = r.pixels.countP (fun p => decide (a ≤ p ∧ p < a + n)) := by
  unfold binRangeSum histCount
  exact count_range_sum r.pixels a n

lemma countP_congr_mem {l : List Nat} {p q : Nat → Bool}
    (h : ∀ x ∈ l, p x = q x) : l.countP p = l.countP q := by
  induction l with
  | nil => rfl
  | cons a t ih =>
      simp only [List.countP_cons, h a (by simp),
        ih (fun x hx => h x (List.mem_cons_of_mem a hx))]

lemma binSum_blackout (r : Raster) : binRangeSum r 0 75 = countBetween r 0 74 := by
  rw [binRangeSum_eq_countP]
  unfold countBetween
  exact countP_congr_mem fun x _ => by rw [decide_eq_decide]; omega

lemma binSum_flash (r : Raster) (h : ∀ p ∈ r.pixels, p ≤ 255) :
    binRangeSum r 200 56 = countBetween r 200 255 := by
  rw [binRangeSum_eq_countP]
  unfold countBetween
  exact countP_congr_mem fun x hx => by rw [decide_eq_decide]; have := h x hx; omega

lemma binSum_dark (r : Raster) : binRangeSum r 0 85 = countBetween r 0 84 := by
  rw [binRangeSum_eq_countP]
  unfold countBetween
  exact countP_congr_mem fun x _ => by rw [decide_eq_decide]; omega

lemma binSum_mid (r : Raster) : binRangeSum r 85 85 = countBetween r 85 169 := by
  rw [binRangeSum_eq_countP]
  unfold countBetween
  exact countP_congr_mem fun x _ => by rw [decide_eq_decide]; omega

lemma binSum_bright (r : Raster) (h : ∀ p ∈ r.pixels, p ≤ 255) :
    binRangeSum r 170 86 = countBetween r 170 255 := by
  rw [binRangeSum_eq_countP]
  unfold countBetween
  exact countP_congr_mem fun x hx => by rw [decide_eq_decide]; have := h x hx; omega

/-! ### Geometry lemmas -/

lemma pixels_length (r : Raster) (h : r.Rect) : r.pixels.length = r.total := by
  unfold Raster.pixels Raster.total Raster.rows
  rw [List.length_flatten]
  have hall : ∀ x ∈ r.data.map List.length, x = r.cols := by
    intro x hx
    rcases List.mem_map.1 hx with ⟨row, hrow, rfl⟩
    exact h row hrow
  rw [List.sum_eq_card_nsmul _ _ hall]
  simp [smul_eq_mul]

lemma total_pos (r : Raster) (h : r.Valid) : 0 < r.total :=
  Nat.mul_pos h.1 h.2.1

lemma pixels_ne_nil (r : Raster) (h : r.Valid) : r.pixels ≠ [] := by
  have hlen := pixels_length r h.2.2.1
  have hpos := total_pos r h
  intro hnil
  rw [hnil] at hlen
  simp at hlen
  omega

lemma rasterMean_nonneg (r : Raster) : 0 ≤ rasterMean r := by
  unfold rasterMean
  positivity

lemma rasterMean_le_255 (r : Raster) (h : r.Valid) : rasterMean r ≤ 255 := by
  unfold rasterMean
  have htot : (0 : ℚ) < (r.total : ℚ) := by exact_mod_cast total_pos r h
  rw [div_le_iff₀ htot]
  have hsum : rasterSum r ≤ 255 * r.total := by
    have h1 : rasterSum r ≤ r.pixels.length • 255 :=
      List.sum_le_card_nsmul r.pixels 255 h.2.2.2
    have h2 := pixels_length r h.2.2.1
    simp [smul_eq_mul] at h1
    omega
  exact_mod_cast hsum

lemma countBetween_le_total (r : Raster) (a b : Nat) (h : r.Rect) :
    countBetween r a b ≤ r.total := by
  calc countBetween r a b ≤ r.pixels.length := List.countP_le_length _
    _ = r.total := pixels_length r h

lemma pctBetween_nonneg (r : Raster) (a b : Nat) : 0 ≤ pctBetween r a b := by
  unfold pctBetween
  positivity

lemma pctBetween_le_100 (r : Raster) (a b : Nat) (h : r.Valid) :
    pctBetween r a b ≤ 100 := by
  unfold pctBetween
  have htot : (0 : ℚ) < (r.total : ℚ) := by exact_mod_cast total_pos r h
  have hle : (countBetween r a b : ℚ) ≤ (r.total : ℚ) := by
    exact_mod_cast countBetween_le_total r a b h.2.2.1
  rw [div_mul_eq_mul_div, div_le_iff₀ htot]
  nlinarith

/-! ### Variance lemmas -/

lemma listVar_nonneg (xs : List ℚ) : 0 ≤ listVar xs := by
  unfold listVar
  apply div_nonneg
  · apply List.sum_nonneg
    intro x hx
    rcases List.mem_map.1 hx with ⟨y, _, rfl⟩
    positivity
  · positivity

lemma sum_sq_sub (xs : List ℚ) (m : ℚ) :
    (xs.map (fun x => (x - m) ^ 2)).sum
      = (xs.map (fun x => x ^ 2)).sum - 2 * m * xs.sum + (xs.length : ℚ) * m ^ 2 := by
  induction xs with
  | nil => simp
  | cons a t ih =>
      simp only [List.map_cons, List.sum_cons, ih, List.length_cons]
      push_cast
      ring

lemma listVar_eq_moments (xs : List ℚ) :
    listVar xs = (xs.map (fun x => x ^ 2)).sum / (xs.length : ℚ) - listMean xs ^ 2 := by
  rcases eq_or_ne xs [] with rfl | hne
  · simp [listVar, listMean]
  · have hn : ((xs.length : ℚ)) ≠ 0 := by
      have hz : xs.length ≠ 0 := by simpa [List.length_eq_zero] using hne
      exact_mod_cast hz
    unfold listVar listMean
    rw [sum_sq_sub]
    field_simp
    ring

lemma listVar_const (xs : List ℚ) (c : ℚ) (h : ∀ x ∈ xs, x = c) : listVar xs = 0 := by
  rcases eq_or_ne xs [] with rfl | hne
  · simp [listVar, listMean]
  · have hn : ((xs.length : ℚ)) ≠ 0 := by
      have hz : xs.length ≠ 0 := by simpa [List.length_eq_zero] using hne
      exact_mod_cast hz
    have hsum : xs.sum = (xs.length : ℚ) * c := by
      rw [List.sum_eq_card_nsmul xs c h, nsmul_eq_mul]
    have hmean : listMean xs = c := by
      unfold listMean
      rw [hsum]
      field_simp
    unfold listVar
    have hzero : (xs.map (fun x => (x - listMean xs) ^ 2)).sum = 0 := by
      apply List.sum_eq_zero
      intro y hy
      rcases List.mem_map.1 hy with ⟨x, hx, rfl⟩
      rw [hmean, h x hx]
      ring
    rw [hzero, zero_div]

/-! ### Laplacian on a constant raster -/

lemma reflect101_lt (len : Nat) (p : Int) (h0 : 0 < len) (h1 : -1 ≤ p)
    (h2 : p ≤ (len : Int)) : reflect101 len p < len := by
  unfold reflect101
  split_ifs <;> omega

lemma atI_const (r : Raster) (v : Nat) (hv : r.Valid) (hc : ∀ p ∈ r.pixels, p = v)
    (i j : Int) (hi1 : -1 ≤ i) (hi2 : i ≤ (r.rows : Int))
    (hj1 : -1 ≤ j) (hj2 : j ≤ (r.cols : Int)) : r.atI i j = v := by
  unfold Raster.atI
  have hri : reflect101 r.rows i < r.data.length := reflect101_lt r.rows i hv.1 hi1 hi2
  rw [List.getD_eq_getElem r.data [] hri]
  have hrow_mem : r.data[reflect101 r.rows i] ∈ r.data := List.getElem_mem hri
  have hrj : reflect101 r.cols j < (r.data[reflect101 r.rows i]).length := by
    rw [hv.2.2.1 _ hrow_mem]
    exact reflect101_lt r.cols j hv.2.1 hj1 hj2
  rw [List.getD_eq_getElem _ 0 hrj]
  apply hc
  unfold Raster.pixels
  exact List.mem_flatten.2 ⟨_, hrow_mem, List.getElem_mem hrj⟩

lemma lapAt_const (r : Raster) (v : Nat) (hv : r.Valid) (hc : ∀ p ∈ r.pixels, p = v)
    (i j : Nat) (hi : i < r.rows) (hj : j < r.cols) : lapAt r i j = 0 := by
  unfold lapAt
  rw [atI_const r v hv hc _ _ (by omega) (by omega) (by omega) (by omega),
    atI_const r v hv hc _ _ (by omega) (by omega) (by omega) (by omega),
    atI_const r v hv hc _ _ (by omega) (by omega) (by omega) (by omega),
    atI_const r v hv hc _ _ (by omega) (by omega) (by omega) (by omega),
    atI_const r v hv hc _ _ (by omega) (by omega) (by omega) (by omega)]
  ring

lemma lapList_const (r : Raster) (v : Nat) (hv : r.Valid) (hc : ∀ p ∈ r.pixels, p = v) :
    ∀ z ∈ lapList r, z = 0 := by
  intro z hz
  unfold lapList at hz
  rcases List.mem_flatten.1 hz with ⟨row, hrow, hzrow⟩
  rcases List.mem_map.1 hrow with ⟨i, hi, rfl⟩
  rcases List.mem_map.1 hzrow with ⟨j, hj, rfl⟩
  exact lapAt_const r v hv hc i j (List.mem_range.1 hi) (List.mem_range.1 hj)

lemma lapVariance_const (r : Raster) (v : Nat) (hv : r.Valid)
    (hc : ∀ p ∈ r.pixels, p = v) : lapVariance r = 0 := by
  unfold lapVariance
  apply listVar_const _ 0
  intro x hx
  obtain ⟨z, hz, hzx⟩ := List.exists_of_mem_map hx
  rw [← hzx, lapList_const r v hv hc z hz]
  norm_num

/-! ### Clamp bounds -/

lemma clamp_nonneg (x : ℚ) : 0 ≤ min 100 (max 0 x) :=
  le_min (by norm_num) (le_max_left 0 x)

lemma clamp_le100 (x : ℚ) : min 100 (max 0 x) ≤ 100 := min_le_left _ _

lemma flip_clamp_nonneg (x : ℚ) : 0 ≤ 100 - min 100 x := by
  have h := min_le_left (100 : ℚ) x
  linarith

lemma flip_clamp_le100 (x : ℚ) (hx : 0 ≤ x) : 100 - min 100 x ≤ 100 := by
  have h : (0 : ℚ) ≤ min 100 x := le_min (by norm_num) hx
  linarith

lemma calculateBlurScore_bounds (r : Raster) :
    0 ≤ calculateBlurScore r ∧ calculateBlurScore r ≤ 100 := by
  simp only [calculateBlurScore]
  exact ⟨flip_clamp_nonneg _, flip_clamp_le100 _ (le_max_left 0 _)⟩

lemma calculateBlackoutScore_bounds (r : Raster) :
    0 ≤ calculateBlackoutScore r ∧ calculateBlackoutScore r ≤ 100 := by
  simp only [calculateBlackoutScore]
  exact ⟨le_min (by norm_num) (add_nonneg (le_max_left 0 _) (by positivity)),
    min_le_left _ _⟩

lemma calculateFlashScore_bounds (r : Raster) :
    0 ≤ calculateFlashScore r ∧ calculateFlashScore r ≤ 100 := by
  simp only [calculateFlashScore]
  exact ⟨clamp_nonneg _, clamp_le100 _⟩

lemma calculateSceneChangeScore_bounds (cur prev : Raster) :
    0 ≤ calculateSceneChangeScore cur prev ∧ calculateSceneChangeScore cur prev ≤ 100 := by
  simp only [calculateSceneChangeScore]
  split_ifs
  · norm_num
  · exact ⟨clamp_nonneg _, clamp_le100 _⟩

/-! ### Spec-side smear composite (spec §4.5) -/

/-- Spec-side intensity-distribution score as a pure function of
`(meanIntensity, darkPct, midPct, brightPct)`, with the brightness-adjusted
thresholds of §4.5. The addends appear in the order the source accumulates
them: brightness excess, dark, bright, mid. -/
def spec_intensityScore (meanIntensity darkPct midPct brightPct : ℚ) : ℚ :=
  let brightnessFactor := min 1 (meanIntensity / 120)
  (if meanIntensity > 120 then (meanIntensity - 120) * 0.8 else 0)
    + (if darkPct > 8 + brightnessFactor * 3 then darkPct * 0.5 else 0)
    + (if brightPct > 8 + (1 - brightnessFactor) * 3 then brightPct * 0.5 else 0)
    + (if midPct > 15 + brightnessFactor * 2 then midPct * 0.3 else 0)

/-- Spec-side smear composite of §4.5: weighted base score, intensity score,
and the piecewise rescale around the pivot 20. -/
def spec_smearScore (blurS contrastS edgeS meanIntensity darkPct midPct brightPct : ℚ) : ℚ :=
  let baseScore := blurS * 0.5 + contrastS * 0.3 + edgeS * 0.2
  let combinedScore :=
    baseScore + spec_intensityScore meanIntensity darkPct midPct brightPct * 0.4
  if combinedScore > 20 then min 100 (20 + (combinedScore - 20) * 1.5)
  else combinedScore * 0.5

/-- The contrast score as a function of the externally computed standard
deviation of the intensities (source line 119). -/
def contrastScoreOf (stddevIntensity : ℚ) : ℚ :=
  100 - min 100 (max 0 (stddevIntensity / 10 * 100))

/-- Edge density of an edge map (source line 124). -/
def edgeDensityOf (edges : Raster) : ℚ := (countNonZero edges : ℚ) / (edges.total : ℚ)

/-- The edge score of an edge map (source line 125). -/
def edgeScoreOf (edges : Raster) : ℚ := 100 - min 100 (edgeDensityOf edges * 150)

lemma ite_add_zero (p : Prop) [Decidable p] (x a : ℚ) :
    (if p then x + a else x) = x + (if p then a else 0) := by
  split_ifs <;> ring

lemma sabotageSmearScore_eq_spec (gray : Raster) (sd : ℚ) (e : Raster)
    (h255 : ∀ p ∈ gray.pixels, p ≤ 255) :
    sabotageSmearScore gray sd e
      = spec_smearScore (calculateBlurScore gray) (contrastScoreOf sd) (edgeScoreOf e)
          (rasterMean gray) (pctBetween gray 0 84) (pctBetween gray 85 169)
          (pctBetween gray 170 255) := by
  simp only [sabotageSmearScore, spec_smearScore, spec_intensityScore, contrastScoreOf,
    edgeScoreOf, edgeDensityOf, pctBetween, binSum_dark gray, binSum_mid gray,
    binSum_bright gray h255, ite_add_zero, zero_add]

lemma spec_intensityScore_nonneg (m d mi b : ℚ) (hd : 0 ≤ d) (hmi : 0 ≤ mi)
    (hb : 0 ≤ b) : 0 ≤ spec_intensityScore m d mi b := by
  simp only [spec_intensityScore]
  have h1 : (0 : ℚ) ≤ if m > 120 then (m - 120) * 0.8 else 0 := by
    split_ifs with h
    · nlinarith
    · exact le_rfl
  have h2 : (0 : ℚ) ≤ if d > 8 + min 1 (m / 120) * 3 then d * 0.5 else 0 := by
    split_ifs with h
    · nlinarith
    · exact le_rfl
  have h3 : (0 : ℚ) ≤ if b > 8 + (1 - min 1 (m / 120)) * 3 then b * 0.5 else 0 := by
    split_ifs with h
    · nlinarith
    · exact le_rfl
  have h4 : (0 : ℚ) ≤ if mi > 15 + min 1 (m / 120) * 2 then mi * 0.3 else 0 := by
    split_ifs with h
    · nlinarith
    · exact le_rfl
  linarith

lemma spec_smearScore_bounds (bs cs es m d mi b : ℚ)
    (hbs : 0 ≤ bs) (hcs : 0 ≤ cs) (hes : 0 ≤ es)
    (hd : 0 ≤ d) (hmi : 0 ≤ mi) (hb : 0 ≤ b) :
    0 ≤ spec_smearScore bs cs es m d mi b ∧ spec_smearScore bs cs es m d mi b ≤ 100 := by
  have hint := spec_intensityScore_nonneg m d mi b hd hmi hb
  simp only [spec_smearScore]
  have hbase : (0 : ℚ) ≤ bs * 0.5 + cs * 0.3 + es * 0.2 := by nlinarith
  split_ifs with hc
  · exact ⟨le_min (by norm_num) (by nlinarith), min_le_left _ _⟩
  · push_neg at hc
    constructor
    · nlinarith
    · nlinarith

lemma contrastScoreOf_nonneg (sd : ℚ) : 0 ≤ contrastScoreOf sd := by
  simp only [contrastScoreOf]
  exact flip_clamp_nonneg _

lemma edgeScoreOf_nonneg (e : Raster) : 0 ≤ edgeScoreOf e := by
  simp only [edgeScoreOf]
  exact flip_clamp_nonneg _

lemma sabotageSmearScore_bounds (gray : Raster) (sd : ℚ) (e : Raster)
    (h255 : ∀ p ∈ gray.pixels, p ≤ 255) :
    0 ≤ sabotageSmearScore gray sd e ∧ sabotageSmearScore gray sd e ≤ 100 := by
  rw [sabotageSmearScore_eq_spec gray sd e h255]
  exact spec_smearScore_bounds _ _ _ _ _ _ _ (calculateBlurScore_bounds gray).1
    (contrastScoreOf_nonneg sd) (edgeScoreOf_nonneg e)
    (pctBetween_nonneg gray 0 84) (pctBetween_nonneg gray 85 169)
    (pctBetween_nonneg gray 170 255)

/-! ### Scene-change helpers -/

/-- The per-pixel absolute-difference raster of §4.6, as a flat list
(`cv::absdiff` on two same-size rasters). -/
def absDiffList (cur prev : Raster) : List Nat :=
  List.zipWith (fun (a b : Nat) => ((a : Int) - (b : Int)).natAbs) cur.pixels prev.pixels

/-- Spec-side mean of the per-pixel absolute differences. -/
def avgAbsDiff (cur prev : Raster) : ℚ :=
  ((absDiffList cur prev).sum : ℚ) / ((absDiffList cur prev).length : ℚ)

lemma zip_diff_self_sum (xs : List Nat) :
    (List.zipWith (fun (a b : Nat) => ((a : Int) - (b : Int)).natAbs) xs xs).sum = 0 := by
  induction xs with
  | nil => rfl
  | cons a t ih => simp [ih]

lemma zip_diff_const_sum (d : Nat) (xs ys : List Nat)
    (h : List.Forall₂ (fun (a b : Nat) => ((a : Int) - (b : Int)).natAbs = d) xs ys) :
    (List.zipWith (fun (a b : Nat) => ((a : Int) - (b : Int)).natAbs) xs ys).sum
      = xs.length * d := by
  induction h with
  | nil => simp
  | cons h1 h2 ih =>
      simp only [List.zipWith_cons_cons, List.sum_cons, List.length_cons, ih, h1]
      ring

lemma absDiffList_length (cur prev : Raster) (hc : cur.Valid) (hp : prev.Valid)
    (hrows : cur.rows = prev.rows) (hcols : cur.cols = prev.cols) :
    (absDiffList cur prev).length = cur.total := by
  unfold absDiffList
  rw [List.length_zipWith, pixels_length cur hc.2.2.1, pixels_length prev hp.2.2.1]
  unfold Raster.total
  rw [hrows, hcols, Nat.min_self]

lemma pixels_isEmpty_false (r : Raster) (h : r.Valid) : r.pixels.isEmpty = false := by
  have hne := pixels_ne_nil r h
  cases hp : r.pixels.isEmpty
  · rfl
  · exact absurd (List.isEmpty_iff.1 hp) hne

lemma clamp_of_nonneg (x : ℚ) (hx : 0 ≤ x) : clamp x 0 100 = min 100 x := by
  unfold clamp
  rw [max_eq_right hx]

/-- The variance written as second moment minus squared mean — the "squared
standard deviation" form in which `cv::meanStdDev` accumulates it. -/
def momentVariance (xs : List ℚ) : ℚ :=
  (xs.map (fun x => x ^ 2)).sum / (xs.length : ℚ) - listMean xs ^ 2

lemma pctBetween_full (r : Raster) (h : r.Valid) (a b : ℕ)
    (hcnt : countBetween r a b = r.pixels.length) : pctBetween r a b = 100 := by
  unfold pctBetween
  rw [hcnt, pixels_length r h.2.2.1]
  have htot : ((r.total : ℚ)) ≠ 0 := by
    have hp := total_pos r h
    exact_mod_cast hp.ne'
  field_simp

lemma sceneChange_eq_clamp (cur prev : Raster) (hc : cur.Valid) (hp : prev.Valid)
    (hrows : cur.rows = prev.rows) (hcols : cur.cols = prev.cols) :
    calculateSceneChangeScore cur prev = clamp (avgAbsDiff cur prev / 50 * 100) 0 100 := by
  have hlen := absDiffList_length cur prev hc hp hrows hcols
  simp only [calculateSceneChangeScore, pixels_isEmpty_false prev hp, Bool.false_eq_true,
    if_false, clamp, avgAbsDiff]
  rw [← hlen]
  rfl

lemma sceneChange_self (r : Raster) (h : r.Valid) : calculateSceneChangeScore r r = 0 := by
  simp only [calculateSceneChangeScore, pixels_isEmpty_false r h, Bool.false_eq_true, if_false]
  rw [zip_diff_self_sum]
  norm_num

lemma sceneChange_offset (cur prev : Raster) (hc : cur.Valid) (hp : prev.Valid)
    (d : Nat)
    (hoff : List.Forall₂ (fun (a b : Nat) => ((a : Int) - (b : Int)).natAbs = d)
      cur.pixels prev.pixels) :
    calculateSceneChangeScore cur prev = min 100 (max 0 ((d : ℚ) / 50 * 100)) := by
  have htot : ((cur.total : ℚ)) ≠ 0 := by
    have hpos := total_pos cur hc
    exact_mod_cast hpos.ne'
  simp only [calculateSceneChangeScore, pixels_isEmpty_false prev hp, Bool.false_eq_true,
    if_false]
  rw [zip_diff_const_sum d _ _ hoff, pixels_length cur hc.2.2.1]
  push_cast
  have hsimp : (cur.total : ℚ) * (d : ℚ) / (cur.total : ℚ) = (d : ℚ) := by
    rw [mul_comm, mul_div_assoc, div_self htot, mul_one]
  rw [hsimp]

/-! ### Concrete rasters used by the witnesses and the counterexample -/

/-- A concrete valid 2×2 raster. -/
def sampleRaster : Raster := ⟨[[10, 200], [30, 90]]⟩

/-- The `sampleRaster` shifted up by 25 everywhere. -/
def shiftedRaster : Raster := ⟨[[35, 225], [55, 115]]⟩

/-- A concrete all-black 2×2 raster. -/
def blackRaster : Raster := ⟨[[0, 0], [0, 0]]⟩

/-- A concrete all-white 2×2 raster. -/
def whiteRaster : Raster := ⟨[[255, 255], [255, 255]]⟩

/-- A concrete uniform 2×2 raster. -/
def flatRaster : Raster := ⟨[[7, 7], [7, 7]]⟩

/-- A concrete 1×1 raster. -/
def oneRaster : Raster := ⟨[[5]]⟩

/-- The empty raster: what a failed decode produces. -/
def emptyRaster : Raster := ⟨[]⟩

/-! ### Claims -/

/-- C1: for every valid non-empty raster, every score published by
single-frame scoring (`blurScore`, `blackoutScore`, `flashScore`,
`smearScore`) and by pair scoring (`sceneChangeScore`) lies in `[0, 100]` —
for every possible standard deviation, edge map, and previous raster. -/
theorem claim_C1_scores_in_range (r : Raster) (h : r.Valid)
    (sd : ℚ) (edges : Raster) (prev : Raster) :
    (0 ≤ calculateBlurScore r ∧ calculateBlurScore r ≤ 100)
    ∧ (0 ≤ calculateBlackoutScore r ∧ calculateBlackoutScore r ≤ 100)
    ∧ (0 ≤ calculateFlashScore r ∧ calculateFlashScore r ≤ 100)
    ∧ (0 ≤ sabotageSmearScore r sd edges ∧ sabotageSmearScore r sd edges ≤ 100)
    ∧ (0 ≤ calculateSceneChangeScore r prev ∧ calculateSceneChangeScore r prev ≤ 100) :=
  ⟨calculateBlurScore_bounds r, calculateBlackoutScore_bounds r,
    calculateFlashScore_bounds r, sabotageSmearScore_bounds r sd edges h.2.2.2,
    calculateSceneChangeScore_bounds r prev⟩

/-- Witness for C1 at a concrete raster, standard deviation and edge map. -/
theorem claim_C1_witness :
    sampleRaster.Valid
    ∧ ((0 ≤ calculateBlurScore sampleRaster ∧ calculateBlurScore sampleRaster ≤ 100)
      ∧ (0 ≤ calculateBlackoutScore sampleRaster ∧ calculateBlackoutScore sampleRaster ≤ 100)
      ∧ (0 ≤ calculateFlashScore sampleRaster ∧ calculateFlashScore sampleRaster ≤ 100)
      ∧ (0 ≤ sabotageSmearScore sampleRaster 3 flatRaster
          ∧ sabotageSmearScore sampleRaster 3 flatRaster ≤ 100)
      ∧ (0 ≤ calculateSceneChangeScore sampleRaster blackRaster
          ∧ calculateSceneChangeScore sampleRaster blackRaster ≤ 100)) :=
  ⟨by decide, claim_C1_scores_in_range sampleRaster (by decide) 3 flatRaster blackRaster⟩

/-- C3: the smear score of the single-frame pipeline equals the exact
composite of §4.5: base score `blur*0.5 + contrast*0.3 + edge*0.2`, the
brightness-adjusted conditional intensity accumulation, `combined = base +
intensity*0.4`, and the piecewise rescale around 20. -/
theorem claim_C3_smear_composite (gray : Raster) (h : gray.Valid) (sd : ℚ) (edges : Raster) :
    sabotageSmearScore gray sd edges
      = spec_smearScore (calculateBlurScore gray) (contrastScoreOf sd) (edgeScoreOf edges)
          (rasterMean gray) (pctBetween gray 0 84) (pctBetween gray 85 169)
          (pctBetween gray 170 255) :=
  sabotageSmearScore_eq_spec gray sd edges h.2.2.2

/-- Witness for C3 at a concrete raster, standard deviation and edge map. -/
theorem claim_C3_witness :
    sampleRaster.Valid
    ∧ sabotageSmearScore sampleRaster 3 flatRaster
      = spec_smearScore (calculateBlurScore sampleRaster) (contrastScoreOf 3)
          (edgeScoreOf flatRaster) (rasterMean sampleRaster) (pctBetween sampleRaster 0 84)
          (pctBetween sampleRaster 85 169) (pctBetween sampleRaster 170 255) :=
  ⟨by decide, claim_C3_smear_composite sampleRaster (by decide) 3 flatRaster⟩

/-- C5: for same-dimension valid rasters the scene-change score is
`clamp((avgDiff/50)*100, 0, 100)` with `avgDiff` the mean per-pixel absolute
difference; identical rasters give 0; a constant offset `d` gives
`clamp((d/50)*100, 0, 100)` — 50 at `d = 25` and 100 for every `d ≥ 50`. -/
theorem claim_C5_scene_change_formula (cur prev : Raster) (hc : cur.Valid) (hp : prev.Valid)
    (hrows : cur.rows = prev.rows) (hcols : cur.cols = prev.cols) :
    calculateSceneChangeScore cur prev = clamp (avgAbsDiff cur prev / 50 * 100) 0 100
    ∧ (prev = cur → calculateSceneChangeScore cur prev = 0)
    ∧ ∀ d : ℕ, List.Forall₂ (fun (a b : Nat) => ((a : Int) - (b : Int)).natAbs = d)
        cur.pixels prev.pixels →
      calculateSceneChangeScore cur prev = clamp ((d : ℚ) / 50 * 100) 0 100
      ∧ (d = 25 → calculateSceneChangeScore cur prev = 50)
      ∧ (50 ≤ d → calculateSceneChangeScore cur prev = 100) := by
  refine ⟨sceneChange_eq_clamp cur prev hc hp hrows hcols, ?_, ?_⟩
  · intro he
    rw [he]
    exact sceneChange_self cur hc
  · intro d hoff
    have hbase := sceneChange_offset cur prev hc hp d hoff
    refine ⟨by rw [hbase]; rfl, ?_, ?_⟩
    · rintro rfl
      rw [hbase]
      norm_num [min_def, max_def]
    · intro hd
      rw [hbase]
      have hd' : (50 : ℚ) ≤ (d : ℚ) := by exact_mod_cast hd
      have h100 : (100 : ℚ) ≤ (d : ℚ) / 50 * 100 := by linarith
      rw [max_eq_right (by linarith : (0 : ℚ) ≤ (d : ℚ) / 50 * 100), min_eq_left h100]

/-- Witness for C5: identical concrete rasters give score 0, and the
constant offset 25 between two concrete rasters gives score 50. -/
theorem claim_C5_witness :
    sampleRaster.Valid
    ∧ calculateSceneChangeScore sampleRaster sampleRaster = 0
    ∧ calculateSceneChangeScore shiftedRaster sampleRaster = 50 :=
  ⟨by decide,
    (claim_C5_scene_change_formula sampleRaster sampleRaster (by decide) (by decide)
      rfl rfl).2.1 rfl,
    (((claim_C5_scene_change_formula shiftedRaster sampleRaster (by decide) (by decide)
      rfl rfl).2.2 25 (by decide)).2.1 rfl)⟩

/-- C6: the blackout score equals
`clamp(max(0,(60-avg)*1.5) + darkPercentage*0.6, 0, 100)` with
`darkPercentage` the percentage of pixels in `[0,74]`, and an all-black
raster scores 100. -/
theorem claim_C6_blackout_formula (r : Raster) (h : r.Valid) :
    calculateBlackoutScore r
      = clamp (max 0 ((60 - rasterMean r) * 1.5) + pctBetween r 0 74 * 0.6) 0 100
    ∧ ((∀ p ∈ r.pixels, p = 0) → calculateBlackoutScore r = 100) := by
  have hpct : 0 ≤ pctBetween r 0 74 := pctBetween_nonneg r 0 74
  have hX : (0 : ℚ) ≤ max 0 ((60 - rasterMean r) * 1.5) + pctBetween r 0 74 * 0.6 :=
    add_nonneg (le_max_left _ _) (by nlinarith)
  have h1 : calculateBlackoutScore r
      = clamp (max 0 ((60 - rasterMean r) * 1.5) + pctBetween r 0 74 * 0.6) 0 100 := by
    rw [clamp_of_nonneg _ hX]
    simp only [calculateBlackoutScore, binSum_blackout r, pctBetween]
  refine ⟨h1, fun hz => ?_⟩
  have hmean : rasterMean r = 0 := by
    unfold rasterMean rasterSum
    rw [List.sum_eq_zero hz]
    simp
  have hcnt : countBetween r 0 74 = r.pixels.length := by
    unfold countBetween
    rw [List.countP_eq_length]
    intro x hx
    rw [hz x hx]
    decide
  rw [h1, hmean, pctBetween_full r h 0 74 hcnt]
  norm_num [clamp, min_def, max_def]

/-- Witness for C6 at the all-black raster. -/
theorem claim_C6_witness :
    blackRaster.Valid ∧ calculateBlackoutScore blackRaster = 100 :=
  ⟨by decide, (claim_C6_blackout_formula blackRaster (by decide)).2 (by decide)⟩

/-- C7: the blur score equals `100 - clamp((variance/1000)*100, 0, 100)` with
`variance` the squared standard deviation (second moment minus squared mean)
of the Laplacian response, and a constant raster scores 100. -/
theorem claim_C7_blur_formula (r : Raster) (h : r.Valid) :
    calculateBlurScore r
      = 100 - clamp (momentVariance (List.map (fun z : ℤ => (z : ℚ)) (lapList r))
          / 1000 * 100) 0 100
    ∧ ∀ v : ℕ, (∀ p ∈ r.pixels, p = v) → calculateBlurScore r = 100 := by
  constructor
  · unfold calculateBlurScore clamp momentVariance lapVariance
    rw [listVar_eq_moments]
    norm_num
  · intro v hv
    unfold calculateBlurScore
    rw [lapVariance_const r v h hv]
    norm_num

/-- Witness for C7 at a concrete uniform raster. -/
theorem claim_C7_witness :
    flatRaster.Valid ∧ calculateBlurScore flatRaster = 100 :=
  ⟨by decide, (claim_C7_blur_formula flatRaster (by decide)).2 7 (by decide)⟩

/-- C8: the flash score equals `clamp(brightPercentage*3, 0, 100)` with
`brightPercentage` the percentage of pixels in `[200,255]`, and an all-white
raster scores 100. -/
theorem claim_C8_flash_formula (r : Raster) (h : r.Valid) :
    calculateFlashScore r = clamp (pctBetween r 200 255 * 3) 0 100
    ∧ ((∀ p ∈ r.pixels, p = 255) → calculateFlashScore r = 100) := by
  have h1 : calculateFlashScore r = clamp (pctBetween r 200 255 * 3) 0 100 := by
    simp only [calculateFlashScore, clamp, pctBetween, binSum_flash r h.2.2.2]
  refine ⟨h1, fun hz => ?_⟩
  have hcnt : countBetween r 200 255 = r.pixels.length := by
    unfold countBetween
    rw [List.countP_eq_length]
    intro x hx
    rw [hz x hx]
    decide
  rw [h1, pctBetween_full r h 200 255 hcnt]
  norm_num [clamp, min_def, max_def]

/-- Witness for C8 at the all-white raster. -/
theorem claim_C8_witness :
    whiteRaster.Valid ∧ calculateFlashScore whiteRaster = 100 :=
  ⟨by decide, (claim_C8_flash_formula whiteRaster (by decide)).2 (by decide)⟩

/-- C2 counterexample: a pair-scoring call whose current frame decodes to a
valid raster and whose previous frame decodes to the empty raster does not
succeed with `sceneChangeScore = 0` — it throws `"Failed to read images"`
(the guard at source lines 223–226 fires before the helper's empty-previous
branch can return 0). -/
theorem claim_C2_counterexample :
    oneRaster.Valid
    ∧ DetectSceneChange (fun _ => oneRaster) (fun _ => emptyRaster)
        (.path "cur") (.buffer []) = .error .readError
    ∧ DetectSceneChange (fun _ => oneRaster) (fun _ => emptyRaster)
        (.path "cur") (.buffer []) ≠ .ok ⟨0⟩ :=
  ⟨by decide, rfl, fun hcon => Except.noConfusion hcon⟩

/-- C2 amended: a pair-scoring call with an absent (non-string, non-buffer)
previous argument fails with a type error, and one whose previous raster
decodes empty fails with a read error — no score record is returned in
either case; only the internal helper `calculateSceneChangeScore` returns 0
on an empty previous raster. -/
theorem claim_C2_amended (imreadF : String → Raster) (imdecodeF : List Nat → Raster)
    (a1 a2 : NapiArg) (current : Raster)
    (hdec : decodeArg imreadF imdecodeF a1 = some current) (_hcv : current.Valid) :
    (decodeArg imreadF imdecodeF a2 = none →
      DetectSceneChange imreadF imdecodeF a1 a2 = .error .typeError)
    ∧ (∀ previous, decodeArg imreadF imdecodeF a2 = some previous → previous.pixels = [] →
      DetectSceneChange imreadF imdecodeF a1 a2 = .error .readError)
    ∧ (∀ cur prev : Raster, prev.pixels = [] → calculateSceneChangeScore cur prev = 0) := by
  refine ⟨?_, ?_, ?_⟩
  · intro h2
    simp only [DetectSceneChange, hdec, h2]
  · intro previous h2 hemp
    simp only [DetectSceneChange, hdec, h2]
    have hbe : previous.pixels.isEmpty = true := by simp [hemp]
    simp [hbe]
  · intro cur prev hemp
    simp only [calculateSceneChangeScore]
    have hbe : prev.pixels.isEmpty = true := by simp [hemp]
    simp [hbe]

/-- Witness for the amended C2 at concrete decoders and arguments. -/
theorem claim_C2_witness :
    oneRaster.Valid
    ∧ DetectSceneChange (fun _ => oneRaster) (fun _ => emptyRaster)
        (.path "cur") .other = .error .typeError
    ∧ DetectSceneChange (fun _ => oneRaster) (fun _ => emptyRaster)
        (.path "cur") (.buffer []) = .error .readError
    ∧ calculateSceneChangeScore oneRaster emptyRaster = 0 :=
  ⟨by decide,
    (claim_C2_amended (fun _ => oneRaster) (fun _ => emptyRaster) (.path "cur") .other
      oneRaster rfl (by decide)).1 rfl,
    (claim_C2_amended (fun _ => oneRaster) (fun _ => emptyRaster) (.path "cur") (.buffer [])
      oneRaster rfl (by decide)).2.1 emptyRaster rfl rfl,
    (claim_C2_amended (fun _ => oneRaster) (fun _ => emptyRaster) (.path "cur") (.buffer [])
      oneRaster rfl (by decide)).2.2 oneRaster emptyRaster rfl⟩

/-- C4: at the public boundary a malformed argument is rejected with a type
error independently of the decoders (hence before any decode or score
computation), and a decode that yields an empty raster is rejected as a read
failure with no score record, for both entry points. -/
theorem claim_C4_boundary (imreadF : String → Raster) (imdecodeF : List Nat → Raster)
    (stddevOf : Raster → ℚ) (cannyOf : Raster → Raster) :
    (DetectSabotage imreadF imdecodeF stddevOf cannyOf .other = .error .typeError)
    ∧ (∀ a r, decodeArg imreadF imdecodeF a = some r → r.pixels = [] →
        DetectSabotage imreadF imdecodeF stddevOf cannyOf a = .error .readError)
    ∧ (∀ a2, DetectSceneChange imreadF imdecodeF .other a2 = .error .typeError)
    ∧ (∀ a1 c, decodeArg imreadF imdecodeF a1 = some c →
        DetectSceneChange imreadF imdecodeF a1 .other = .error .typeError)
    ∧ (∀ a1 a2 c p, decodeArg imreadF imdecodeF a1 = some c →
        decodeArg imreadF imdecodeF a2 = some p → (c.pixels = [] ∨ p.pixels = []) →
        DetectSceneChange imreadF imdecodeF a1 a2 = .error .readError) := by
  refine ⟨rfl, ?_, fun a2 => rfl, ?_, ?_⟩
  · intro a r hdec hemp
    simp only [DetectSabotage, hdec, detectSabotageOnRaster]
    have hbe : r.pixels.isEmpty = true := by simp [hemp]
    simp [hbe]
  · intro a1 c hdec
    cases a1 <;> rfl
  · intro a1 a2 c p hdec1 hdec2 hor
    simp only [DetectSceneChange, hdec1, hdec2]
    rcases hor with hemp | hemp
    · have hbe : c.pixels.isEmpty = true := by simp [hemp]
      simp [hbe]
    · have hbe : p.pixels.isEmpty = true := by simp [hemp]
      simp [hbe]

/-- Witness for C4 at concrete decoders and arguments. -/
theorem claim_C4_witness :
    DetectSabotage (fun _ => oneRaster) (fun _ => emptyRaster)
        (fun _ => 0) (fun r => r) .other = .error .typeError
    ∧ DetectSabotage (fun _ => oneRaster) (fun _ => emptyRaster)
        (fun _ => 0) (fun r => r) (.buffer []) = .error .readError
    ∧ DetectSceneChange (fun _ => oneRaster) (fun _ => emptyRaster)
        .other (.path "p") = .error .typeError
    ∧ DetectSceneChange (fun _ => oneRaster) (fun _ => emptyRaster)
        (.buffer []) (.path "p") = .error .readError :=
  ⟨(claim_C4_boundary (fun _ => oneRaster) (fun _ => emptyRaster) (fun _ => 0) (fun r => r)).1,
    (claim_C4_boundary (fun _ => oneRaster) (fun _ => emptyRaster) (fun _ => 0)
      (fun r => r)).2.1 (.buffer []) emptyRaster rfl rfl,
    (claim_C4_boundary (fun _ => oneRaster) (fun _ => emptyRaster) (fun _ => 0)
      (fun r => r)).2.2.1 (.path "p"),
    (claim_C4_boundary (fun _ => oneRaster) (fun _ => emptyRaster) (fun _ => 0)
      (fun r => r)).2.2.2.2 (.buffer []) (.path "p") emptyRaster oneRaster rfl rfl
      (Or.inl rfl)⟩

/-- C9: for every valid raster every divisor in the scoring formulas — in
particular the total pixel count — is positive, and the intermediate
quantities are well-defined and bounded: the mean lies in `[0,255]`, every
percentage lies in `[0,100]`, and both variances (whose square roots the
pipeline takes) are non-negative. -/
theorem claim_C9_totality (r : Raster) (h : r.Valid) :
    (0 : ℚ) < (r.total : ℚ)
    ∧ (0 ≤ rasterMean r ∧ rasterMean r ≤ 255)
    ∧ (∀ a b : ℕ, 0 ≤ pctBetween r a b ∧ pctBetween r a b ≤ 100)
    ∧ 0 ≤ lapVariance r
    ∧ 0 ≤ rasterVariance r := by
  refine ⟨?_, ⟨rasterMean_nonneg r, rasterMean_le_255 r h⟩,
    fun a b => ⟨pctBetween_nonneg r a b, pctBetween_le_100 r a b h⟩,
    listVar_nonneg _, listVar_nonneg _⟩
  exact_mod_cast total_pos r h

/-- Witness for C9 at a concrete raster. -/
theorem claim_C9_witness :
    sampleRaster.Valid
    ∧ ((0 : ℚ) < (sampleRaster.total : ℚ)
      ∧ (0 ≤ rasterMean sampleRaster ∧ rasterMean sampleRaster ≤ 255)
      ∧ (∀ a b : ℕ, 0 ≤ pctBetween sampleRaster a b ∧ pctBetween sampleRaster a b ≤ 100)
      ∧ 0 ≤ lapVariance sampleRaster
      ∧ 0 ≤ rasterVariance sampleRaster) :=
  ⟨by decide, claim_C9_totality sampleRaster (by decide)⟩

/-- C10: the smear computation duplicated in `DetectSmear` denotes the same
function of the grayscale raster (and of the shared external standard
deviation and Canny edge map) as the smear block inside `DetectSabotage`. -/
theorem claim_C10_smear_equivalence (gray : Raster) (sd : ℚ) (edges : Raster) :
    detectSmearScoreOf gray sd edges = sabotageSmearScore gray sd edges := rfl

end CameraSabotage
